import Mathlib

/-!
Verification of the kz-demo-provisioning orchestrator (worker/tasks.py,
app/aws_cdk_provisioner.py, app/terraform_runner.py, app/models.py,
app/email_service.py) against its natural-language specification.

The Python code is shallowly embedded: each task becomes a pure Lean
function from the job record, the environment configuration and the
outcomes of the external world (AWS API calls, subprocesses, HTTP probes)
to the updated job record, the log entries written and the side effects
performed (status writes, subprocess launches, scheduled follow-up tasks).
-/

namespace KzProvisioning

/-- Whether `pat` occurs as a contiguous sublist: Python `pat in s` on the
character lists. -/
def charsContains : List Char → List Char → Bool
  | [], pat => pat.isEmpty
  | c :: rest, pat => pat.isPrefixOf (c :: rest) || charsContains rest pat

/-- Python substring test `pat in s`. -/
def strContains (s pat : String) : Bool :=
  charsContains s.data pat.data

/-- Python `s.startswith(pre)`. -/
def pyStartsWith (s pre : String) : Bool :=
  pre.data.isPrefixOf s.data

/-- Replace every non-overlapping occurrence of `pat` (left to right) by
`repl`, with explicit fuel so the recursion is structural; each step consumes
at least one character, so `fuel = s.length` suffices.  For the empty
pattern it returns the string unchanged (the source only ever replaces the
non-empty pattern `release/`). -/
def charsReplaceFuel (pat repl : List Char) : Nat → List Char → List Char
  | 0, s => s
  | _ + 1, [] => []
  | fuel + 1, c :: rest =>
    if pat.isPrefixOf (c :: rest) && !pat.isEmpty then
      repl ++ charsReplaceFuel pat repl fuel (rest.drop (pat.length - 1))
    else c :: charsReplaceFuel pat repl fuel rest

/-- Python `s.replace(pat, repl)`. -/
def pyReplace (s pat repl : String) : String :=
  ⟨charsReplaceFuel pat.data repl.data s.data.length s.data⟩

/-- A row of the `job_logs` table as written by the worker tasks
(`JobLog(job_id=…, level=…, message=…, source=…)` in worker/tasks.py). -/
structure LogEntry where
  level : String
  message : String
  source : String
  deriving Repr, DecidableEq

/-- The job record as the worker tasks read and write it.  Fields mirror the
columns of the `jobs` table: those declared in app/models.py plus the AMI
bookkeeping columns added by scripts/migrate_database_ami_fields.py
(`created_ami_id`, `ami_creation_status`, `ami_created_at`,
`ami_creation_error`) and the selection columns the other migration scripts
add, which worker/tasks.py reads and writes.  (app/models.py itself omits
those added columns; that mismatch is treated separately.)  Timestamps are
abstract instants (`Nat`); JSON maps are association lists. -/
structure Job where
  id : Nat
  status : String
  deploymentType : String
  kamiwazaBranch : Option String
  kamiwazaDeploymentMode : Option String
  awsRegion : String
  awsAuthMethod : String
  assumeRoleArn : Option String
  externalId : Option String
  sessionName : Option String
  awsAccountId : Option String
  vpcId : Option String
  subnetId : Option String
  amiId : Option String
  useCachedAmi : Bool
  instanceId : Option String
  publicIp : Option String
  privateIp : Option String
  terraformOutputs : Option (List (String × String))
  kamiwazaReady : Bool
  kamiwazaCheckedAt : Option Nat
  kamiwazaCheckAttempts : Nat
  amiCreationStatus : Option String
  amiCreationError : Option String
  createdAmiId : Option String
  amiCreatedAt : Option Nat
  usersData : List String
  selectedApps : List String
  selectedTools : List String
  toolDeploymentStatus : List (String × String)
  errorMessage : Option String
  startedAt : Option Nat
  completedAt : Option Nat
  emailSent : Bool
  emailSentAt : Option Nat
  deriving Repr, DecidableEq

/-- A machine image (AMI) as the EC2 API reports it: id, tag map, state,
owner and creation instant (the source compares ISO `CreationDate` strings;
an abstract totally ordered instant stands for them). -/
structure Image where
  imageId : String
  tags : List (String × String)
  state : String
  owner : String
  creationDate : Nat
  deriving Repr, DecidableEq

/-- The EC2 image store for the target region, plus whether a
`describe_images` call against it raises (network / permission error). -/
structure Ec2Provider where
  images : List Image
  describeFails : Bool
  deriving Repr, DecidableEq

/-- Whether the image carries the tag `key = value`. -/
def Image.hasTag (img : Image) (key value : String) : Bool :=
  img.tags.any (fun kv => kv.1 == key && kv.2 == value)

/-- Version normalization of worker/tasks.py (`check_ami_exists_for_version`
lines 1541-1544 and `create_ami_after_deployment` lines 1680-1683):
`release/X` becomes `vX`, a bare `X` becomes `vX`, a `v…` string is kept. -/
def normalizeKamiwazaVersion (version : String) : String :=
  if pyStartsWith version "release/" then "v" ++ (pyReplace version "release/" "")
  else if pyStartsWith version "v" then version
  else "v" ++ version

/-- The server-side filter sent by `check_ami_exists_for_version`:
`tag:KamiwazaVersion = version`, `tag:ManagedBy = KamiwazaDeploymentManager`,
`state = available`, `Owners = [self]`. -/
def amiFilterMatch (version : String) (img : Image) : Bool :=
  img.hasTag "KamiwazaVersion" version &&
  img.hasTag "ManagedBy" "KamiwazaDeploymentManager" &&
  img.state == "available" &&
  img.owner == "self"

/-- `describe_images` with the filters of `check_ami_exists_for_version`:
`none` when the call raises, otherwise the matching images. -/
def describeKamiwazaImages (provider : Ec2Provider) (version : String) :
    Option (List Image) :=
  if provider.describeFails then none
  else some (provider.images.filter (amiFilterMatch version))

/-- One comparison step of picking the most recently created image. -/
def pickLater (acc img : Image) : Image :=
  if acc.creationDate < img.creationDate then img else acc

/-- `images.sort(key=CreationDate, reverse=True)[0]`: the first image of
maximal creation date (Python's sort is stable, so among ties the earliest
listed wins; the fold below keeps the accumulator unless a strictly later
image appears, which picks the same element). -/
def mostRecentImage (hd : Image) (tl : List Image) : Image :=
  tl.foldl pickLater hd

/-- `check_ami_exists_for_version(version, region, credentials)` of
worker/tasks.py lines 1527-1585: normalize the version, query the provider
for available managed images tagged with it, return the most recently
created match; any exception (including a failing describe call) is caught
and yields `None`. -/
def checkAmiExistsForVersion (version : String) (provider : Ec2Provider) :
    Option String :=
  let v := normalizeKamiwazaVersion version
  match describeKamiwazaImages provider v with
  | none => none
  | some images =>
    match images with
    | [] => none
    | hd :: tl => some (mostRecentImage hd tl).imageId

/-- Outcome of the single HTTP probe of `check_kamiwaza_readiness`
(worker/tasks.py lines 1289-1465): either `urlopen` returned a response, or
it raised one of the classified exceptions. -/
inductive ProbeResult
  | response (statusCode : Nat) (body : String)
  | httpError (code : Nat)
  | connectionTimeout
  | dnsFailure (reason : String)
  | connectionRefused
  | sslError (reason : String)
  | urlError (reason : String)
  | socketTimeout
  | unexpectedError (typeName message : String)
  deriving Repr, DecidableEq

/-- The marker test of line 1298: the lower-cased body contains
`kamiwaza` or `login`. -/
def contentLooksLikeKamiwaza (content : String) : Bool :=
  strContains content.toLower "kamiwaza" || strContains content.toLower "login"

/-- The probe outcomes that set `kamiwaza_ready`: HTTP 200 with the marker. -/
def probeSucceeds : ProbeResult → Bool
  | .response statusCode content =>
      statusCode == 200 && contentLooksLikeKamiwaza content
  | _ => false

/-- The `error_details` string computed by lines 1437-1465; `none` exactly on
the success path (which returns before `error_details` is used). -/
def probeErrorDetails : ProbeResult → Option String
  | .response statusCode content =>
      if statusCode == 200 then
        if contentLooksLikeKamiwaza content then none
        else some ("Got HTTP 200 but content doesn't look like Kamiwaza (content length: "
          ++ toString content.length ++ " bytes)")
      else some ("Got HTTP " ++ toString statusCode)
  | .httpError code => some ("HTTP " ++ toString code ++ " error")
  | .connectionTimeout => some "Connection timeout (10s) - service may still be starting"
  | .dnsFailure reason => some ("DNS resolution failed: " ++ reason)
  | .connectionRefused => some "Connection refused - port 443 not accepting connections yet"
  | .sslError reason => some ("SSL error: " ++ reason)
  | .urlError reason => some ("Connection failed: " ++ reason)
  | .socketTimeout => some "Socket timeout - service not responding"
  | .unexpectedError typeName message => some (typeName ++ ": " ++ message)

/-- Outcomes of the app/tool hydration sub-calls made inside the success
branch of the readiness check: each is either a raised exception or a
(success flag, summary) pair. -/
structure HydrationWorld where
  appResult : Except String (Bool × String)
  toolResult : Except String (Bool × String)
  deriving Repr

/-- A log entry with source `readiness-check`. -/
def rcLog (level message : String) : LogEntry :=
  ⟨level, message, "readiness-check"⟩

/-- Python dict assignment `m[k] = v` on an association list. -/
def assocSet (m : List (String × String)) (k v : String) : List (String × String) :=
  if m.any (fun kv => kv.1 == k) then
    m.map (fun kv => if kv.1 == k then (k, v) else kv)
  else m ++ [(k, v)]

/-- `for tool_name in selected_tools: job.tool_deployment_status[tool_name] = v`. -/
def setToolStatuses (m : List (String × String)) (tools : List String) (v : String) :
    List (String × String) :=
  tools.foldl (fun acc t => assocSet acc t v) m

/-- The tools part of the hydration block (worker/tasks.py lines 1360-1415),
entered with the logs accumulated by the apps part. -/
def readinessToolsPhase (job : Job) (w : HydrationWorld) (logs : List LogEntry) :
    Job × List LogEntry :=
  if !job.selectedTools.isEmpty then
    let startLog := rcLog "info"
      ("Starting automatic tool deployment: " ++ String.intercalate ", " job.selectedTools)
    match w.toolResult with
    | .error e =>
        (job, logs ++ [startLog, rcLog "error" ("✗ App/tool deployment error: " ++ e)])
    | .ok (true, _) =>
        ({ job with toolDeploymentStatus :=
             setToolStatuses job.toolDeploymentStatus job.selectedTools "success" },
         logs ++ [startLog, rcLog "info" "✓ Tools deployed successfully"])
    | .ok (false, summary) =>
        ({ job with toolDeploymentStatus :=
             setToolStatuses job.toolDeploymentStatus job.selectedTools "failed" },
         logs ++ [startLog, rcLog "warning" ("⚠ Tool deployment failed: " ++ summary)])
  else (job, logs)

/-- The app/tool deployment block of the readiness success branch
(worker/tasks.py lines 1313-1426): runs only for Kamiwaza-only deployments
(no users CSV) with apps or tools selected; a raised exception inside the
block is caught and logged, leaving the rest of the success path intact. -/
def deployAppsAndTools (job : Job) (w : HydrationWorld) : Job × List LogEntry :=
  if job.usersData.isEmpty && (!job.selectedApps.isEmpty || !job.selectedTools.isEmpty) then
    if !job.selectedApps.isEmpty then
      let startLog := rcLog "info"
        ("Starting automatic app deployment: " ++ String.intercalate ", " job.selectedApps)
      match w.appResult with
      | .error e =>
          (job, [startLog, rcLog "error" ("✗ App/tool deployment error: " ++ e)])
      | .ok (true, _) =>
          readinessToolsPhase job w [startLog, rcLog "info" "✓ Apps deployed successfully"]
      | .ok (false, summary) =>
          readinessToolsPhase job w
            [startLog, rcLog "warning" ("⚠ App deployment failed: " ++ summary)]
    else readinessToolsPhase job w []
  else (job, [])

/-- Result of one invocation of the readiness-check task: the updated job,
the log entries written, whether the task re-enqueued itself
(`apply_async(countdown=30)`), whether AMI creation was scheduled, and
whether the SSM debug-info collection was attempted. -/
structure ReadinessResult where
  job : Job
  logs : List LogEntry
  rescheduled : Bool
  amiTaskScheduled : Bool
  debugInfoCollected : Bool
  deriving Repr, DecidableEq

/-- `MAX_ATTEMPTS = 180` of worker/tasks.py line 1483. -/
def maxReadinessAttempts : Nat := 180

/-- Success branch of the readiness check (lines 1296-1436): mark ready, log,
run the hydration block, and trigger AMI creation when its status is unset
or `pending`.  The probe attempt was already counted before the probe. -/
def readinessSuccessStep (job : Job) (ip : String) (w : HydrationWorld) : ReadinessResult :=
  let job := { job with kamiwazaReady := true }
  let successLog := rcLog "info"
    ("✓ Kamiwaza login page is now accessible at https://" ++ ip)
  let hyd := deployAppsAndTools job w
  let job := hyd.1
  if job.amiCreationStatus == none || job.amiCreationStatus == some "pending" then
    ⟨{ job with amiCreationStatus := some "pending" },
     successLog :: hyd.2, false, true, false⟩
  else
    ⟨job, successLog :: hyd.2, false, false, false⟩

/-- Failure tail of the readiness check (lines 1467-1502): log the attempt,
then either reschedule (attempts below the cap) or write the single
timed-out warning and collect debug information.  The job passed in already
carries the incremented attempt counter. -/
def readinessFailureStep (job : Job) (ip : String) (errorDetails : Option String) :
    ReadinessResult :=
  let message := match errorDetails with
    | some d => "Kamiwaza readiness check #" ++ toString job.kamiwazaCheckAttempts ++ ": " ++ d
    | none => "Kamiwaza readiness check #" ++ toString job.kamiwazaCheckAttempts
        ++ ": Not yet accessible"
  let attemptLog := rcLog "info" message
  if job.kamiwazaCheckAttempts < maxReadinessAttempts then
    ⟨job, [attemptLog], true, false, false⟩
  else
    let exhaust := rcLog "warning"
      ("⚠ Kamiwaza readiness checks timed out after " ++ toString maxReadinessAttempts
        ++ " attempts (~1.5 hours). Last error: " ++ errorDetails.getD "Unknown"
        ++ ". The deployment may still be in progress. Check https://" ++ ip ++ " manually.")
    ⟨job, [attemptLog, exhaust], false, false, true⟩

/-- `check_kamiwaza_readiness(job_id)` of worker/tasks.py lines 1238-1520:
guards (kamiwaza deployment, not yet ready, public IP known), then the
attempt counter is incremented and committed before the single HTTP probe,
whose outcome selects the success or the failure branch. -/
def checkKamiwazaReadiness (job : Job) (now : Nat) (probe : ProbeResult)
    (w : HydrationWorld) : ReadinessResult :=
  if job.deploymentType != "kamiwaza" then ⟨job, [], false, false, false⟩
  else if job.kamiwazaReady then ⟨job, [], false, false, false⟩
  else
    match job.publicIp with
    | none => ⟨job, [], false, false, false⟩
    | some ip =>
      let job := { job with
        kamiwazaCheckAttempts := job.kamiwazaCheckAttempts + 1,
        kamiwazaCheckedAt := some now }
      match probeErrorDetails probe with
      | none => readinessSuccessStep job ip w
      | some d => readinessFailureStep job ip (some d)

/-- Warning-level readiness-check log entries.  In the failure branch of the
readiness check the attempt entry has level `info`, so the only warning-level
entry ever written there is the single timed-out (exhaustion) message. -/
def readinessWarningCount (logs : List LogEntry) : Nat :=
  logs.countP (fun e => e.level == "warning" && e.source == "readiness-check")

/-- The self-rescheduling chain of readiness checks: each list element holds
the invocation instant, the probe outcome and the hydration outcomes of one
invocation; the chain runs while the previous invocation re-enqueued itself.
Returns the final job, all log entries written, and the number of
invocations performed. -/
def runReadinessChain (job : Job) (inputs : List (Nat × ProbeResult × HydrationWorld)) :
    Job × List LogEntry × Nat :=
  match inputs with
  | [] => (job, [], 0)
  | (now, probe, w) :: rest =>
    let r := checkKamiwazaReadiness job now probe w
    if r.rescheduled then
      let rec2 := runReadinessChain r.job rest
      (rec2.1, r.logs ++ rec2.2.1, rec2.2.2 + 1)
    else (r.job, r.logs, 1)

/-- A concrete Kamiwaza job used to instantiate the theorems with
hypotheses. -/
def sampleJob : Job where
  id := 7
  status := "success"
  deploymentType := "kamiwaza"
  kamiwazaBranch := some "release/0.9.2"
  kamiwazaDeploymentMode := some "full"
  awsRegion := "us-west-2"
  awsAuthMethod := "access_key"
  assumeRoleArn := none
  externalId := none
  sessionName := none
  awsAccountId := some "123456789012"
  vpcId := some "vpc-1"
  subnetId := none
  amiId := none
  useCachedAmi := true
  instanceId := some "i-0abc"
  publicIp := some "203.0.113.10"
  privateIp := some "10.0.0.5"
  terraformOutputs := some []
  kamiwazaReady := false
  kamiwazaCheckedAt := none
  kamiwazaCheckAttempts := 0
  amiCreationStatus := none
  amiCreationError := none
  createdAmiId := none
  amiCreatedAt := none
  usersData := []
  selectedApps := []
  selectedTools := []
  toolDeploymentStatus := []
  errorMessage := none
  startedAt := some 100
  completedAt := some 200
  emailSent := false
  emailSentAt := none

/-- The worker environment configuration read from process environment
variables by worker/tasks.py (`AWS_PROVISIONING_METHOD`, `AWS_AUTH_METHOD`,
`AWS_ASSUME_ROLE_ARN`, `AWS_EXTERNAL_ID`, `AWS_SESSION_NAME`,
`AWS_ACCESS_KEY_ID`, `AWS_SECRET_ACCESS_KEY`); `none` models an unset
variable. -/
structure EnvConfig where
  provisioningMethod : String
  authMethod : String
  assumeRoleArn : Option String
  externalId : Option String
  sessionName : Option String
  accessKeyId : Option String
  secretAccessKey : Option String
  deriving Repr, DecidableEq

/-- Resolved AWS credentials as the dict returned by
`AWSCDKProvisioner.assume_role` or assembled from access keys. -/
structure Credentials where
  accessKey : String
  secretKey : String
  sessionToken : Option String
  expiration : Option String
  region : String
  deriving Repr, DecidableEq

/-- The credential resolution of `create_ami_after_deployment`
(worker/tasks.py lines 1641-1676): `assume_role` demands
`AWS_ASSUME_ROLE_ARN` and then performs the role assumption; `access_keys`
demands both keys; any other method leaves `credentials = None` (there is no
`else` branch there, unlike in `execute_cdk_provisioning`). -/
def resolveAmiTaskCredentials (env : EnvConfig) (region : String)
    (assumeRole : Except String Credentials) : Except String (Option Credentials) :=
  if env.authMethod == "assume_role" then
    match env.assumeRoleArn with
    | none => .error "AWS_ASSUME_ROLE_ARN not configured"
    | some _ =>
      match assumeRole with
      | .error e => .error e
      | .ok c => .ok (some c)
  else if env.authMethod == "access_keys" then
    match env.accessKeyId, env.secretAccessKey with
    | some ak, some sk => .ok (some ⟨ak, sk, none, none, region⟩)
    | _, _ => .error "AWS_ACCESS_KEY_ID and AWS_SECRET_ACCESS_KEY not configured"
  else .ok none

/-- Outcomes of the external calls made by `create_ami_after_deployment`:
the role assumption, the image store consulted by the pre-creation re-check,
the `create_image` call (provider error message or new image id), whether
the `image_available` waiter succeeds (and its error text when not), and the
volume size reported by the post-wait describe call. -/
structure AmiWorld where
  assumeRole : Except String Credentials
  provider : Ec2Provider
  createResult : Except String String
  waiterOk : Bool
  waiterError : String
  imageSize : Option Nat
  deriving Repr

/-- Result of one run of the AMI-creation task: the updated job, the log
entries written, and whether a `create_image` call was issued. -/
structure AmiResult where
  job : Job
  logs : List LogEntry
  didCreate : Bool
  deriving Repr, DecidableEq

/-- A log entry with source `ami-creation`. -/
def amiLog (level message : String) : LogEntry :=
  ⟨level, message, "ami-creation"⟩

/-- The `"=" * 60` banner line of the AMI-creation success logs. -/
def amiBanner : String :=
  String.mk (List.replicate 60 '=')

/-- `create_ami_after_deployment(job_id)` of worker/tasks.py lines
1588-1814: guards (kamiwaza deployment, not already creating or completed,
instance id known), credential resolution, the pre-creation re-check via
`check_ami_exists_for_version` (recording `skipped` and the found id when it
hits), and otherwise `creating` → `create_image` → waiter →
`completed`/`failed`, with every failure recorded as `ami_creation_status =
failed` plus `ami_creation_error` and an error log entry. -/
def createAmiAfterDeployment (job : Job) (env : EnvConfig) (now : Nat)
    (w : AmiWorld) : AmiResult :=
  if job.deploymentType != "kamiwaza" then
    ⟨{ job with amiCreationStatus := some "skipped" }, [], false⟩
  else if job.amiCreationStatus == some "creating"
      || job.amiCreationStatus == some "completed" then
    ⟨job, [], false⟩
  else
    match job.instanceId with
    | none =>
      ⟨{ job with amiCreationStatus := some "failed",
                  amiCreationError := some "No instance ID available" }, [], false⟩
    | some _ =>
      let logs0 := [amiLog "info" "Starting automatic AMI creation..."]
      match resolveAmiTaskCredentials env job.awsRegion w.assumeRole with
      | .error msg =>
        ⟨{ job with amiCreationStatus := some "failed", amiCreationError := some msg },
         logs0 ++ [amiLog "error" ("Failed to get AWS credentials: " ++ msg)], false⟩
      | .ok _ =>
        let kamiwazaVersion := normalizeKamiwazaVersion (job.kamiwazaBranch.getD "v0.9.2")
        let logs1 := logs0 ++
          [amiLog "info" ("Checking for existing AMI for Kamiwaza " ++ kamiwazaVersion ++ "...")]
        match checkAmiExistsForVersion kamiwazaVersion w.provider with
        | some existingAmi =>
          ⟨{ job with amiCreationStatus := some "skipped",
                      createdAmiId := some existingAmi },
           logs1 ++
             [amiLog "info" ("✓ AMI already exists for " ++ kamiwazaVersion ++ ": " ++ existingAmi),
              amiLog "info" "Skipping AMI creation (version already cached)"], false⟩
        | none =>
          let job2 := { job with amiCreationStatus := some "creating" }
          let amiName := "kamiwaza-golden-" ++ kamiwazaVersion ++ "-" ++ toString now
          let logs2 := logs1 ++
            [amiLog "info" ("No existing AMI found for " ++ kamiwazaVersion ++ ", creating new AMI..."),
             amiLog "info" ("Creating AMI: " ++ amiName)]
          match w.createResult with
          | .error m =>
            let errorMsg := "AWS error creating AMI: " ++ m
            ⟨{ job2 with amiCreationStatus := some "failed",
                         amiCreationError := some errorMsg },
             logs2 ++ [amiLog "error" errorMsg], true⟩
          | .ok amiId =>
            let job3 := { job2 with createdAmiId := some amiId }
            let logs3 := logs2 ++
              [amiLog "info" ("✓ AMI creation initiated: " ++ amiId),
               amiLog "info" "Waiting for AMI to become available (this may take 20-30 minutes)..."]
            if w.waiterOk then
              let sizeLogs := match w.imageSize with
                | some size =>
                  [amiLog "info" ("✓ AMI is now available! Size: " ++ toString size ++ " GB")]
                | none => []
              ⟨{ job3 with amiCreationStatus := some "completed", amiCreatedAt := some now },
               logs3 ++ sizeLogs ++
                 [amiLog "info" amiBanner,
                  amiLog "info" ("✓ AMI Created Successfully: " ++ amiId),
                  amiLog "info" ("Version: " ++ kamiwazaVersion),
                  amiLog "info" ("Region: " ++ job.awsRegion),
                  amiLog "info" "This AMI can now be used for faster future deployments!",
                  amiLog "info" amiBanner], true⟩
            else
              let errorMsg := "Unexpected error creating AMI: " ++ w.waiterError
              ⟨{ job3 with amiCreationStatus := some "failed",
                           amiCreationError := some errorMsg },
               logs3 ++ [amiLog "error" errorMsg], true⟩

/-- The columns the `Job` declarative model of app/models.py actually
declares (lines 7-77), transcribed in order. -/
def jobModelColumns : List String :=
  ["id", "job_name", "status", "deployment_type", "kamiwaza_branch",
   "kamiwaza_github_token", "kamiwaza_repo", "kamiwaza_deployment_mode",
   "aws_region", "aws_auth_method", "assume_role_arn", "external_id",
   "session_name", "aws_account_id", "vpc_id", "subnet_id",
   "security_group_ids", "key_pair_name", "instance_type", "volume_size_gb",
   "ami_id", "tags", "dockerhub_images", "csv_file_id", "users_data",
   "instance_id", "public_ip", "private_ip", "terraform_outputs",
   "kamiwaza_ready", "kamiwaza_checked_at", "kamiwaza_check_attempts",
   "requester_email", "email_sent", "email_sent_at", "created_at",
   "started_at", "completed_at", "error_message"]

/-- The image-cache bookkeeping columns that
scripts/migrate_database_ami_fields.py adds to the `jobs` table and that
worker/tasks.py and app/main.py read and write on `Job` objects. -/
def amiBookkeepingColumns : List String :=
  ["created_ami_id", "ami_creation_status", "ami_created_at", "ami_creation_error"]

/-- An available managed image for Kamiwaza v0.9.2 used in concrete
instantiations. -/
def cachedImg : Image :=
  ⟨"ami-cached01", [("KamiwazaVersion", "v0.9.2"), ("ManagedBy", "KamiwazaDeploymentManager")],
   "available", "self", 50⟩

/-- An environment configured for access-key authentication and the CDK
provisioning method. -/
def envAccessKeys : EnvConfig :=
  ⟨"cdk", "access_keys", none, none, none, some "AKIAEXAMPLE", some "secretExample"⟩

/-- Observable side effects of one orchestrator attempt: job-status writes,
subprocess launches (the CDK / Terraform stages), AWS API calls, the
completion-email call, and Celery task scheduling. -/
inductive Effect
  | statusWrite (s : String)
  | subprocess (stage : String)
  | apiCall (name : String)
  | emailCall
  | scheduleTask (name : String)
  deriving Repr, DecidableEq

/-- The keyword parameters accepted by
`EmailService.send_job_notification` (app/email_service.py lines 16-31). -/
def sendJobNotificationParams : List String :=
  ["recipient_email", "job_name", "job_id", "status", "instance_id",
   "public_ip", "private_ip", "aws_region", "aws_account_id", "role_arn",
   "exposed_ports", "error_message", "log_excerpt", "web_ui_url"]

/-- The keyword arguments `send_completion_email` passes to
`EmailService.send_job_notification` (worker/tasks.py lines 595-611). -/
def sendCompletionEmailCallKwargs : List String :=
  ["recipient_email", "job_name", "job_id", "status", "deployment_type",
   "instance_id", "public_ip", "private_ip", "aws_region", "aws_account_id",
   "role_arn", "exposed_ports", "error_message", "log_excerpt", "web_ui_url"]

/-- The keyword arguments of the call that the callee does not accept; by
Python call semantics a non-empty list means the call raises `TypeError`
before the callee body runs. -/
def unexpectedEmailKwargs : List String :=
  sendCompletionEmailCallKwargs.filter (fun k => !(sendJobNotificationParams.contains k))

/-- `send_completion_email(job, db)` of worker/tasks.py lines 578-617: the
call into `EmailService.send_job_notification` raises `TypeError` when it
passes a keyword the callee does not declare; otherwise `email_sent` (and on
success `email_sent_at`) is recorded.  `emailSendOk` is whether the
underlying SES/SMTP send would report success. -/
def sendCompletionEmail (job : Job) (now : Nat) (emailSendOk : Bool) : Except String Job :=
  match unexpectedEmailKwargs with
  | k :: _ =>
    .error ("TypeError: send_job_notification() got an unexpected keyword argument " ++ k)
  | [] =>
    let job := { job with emailSent := emailSendOk }
    if emailSendOk then .ok { job with emailSentAt := some now } else .ok job

/-- A log entry with the default worker source. -/
def wkLog (level message : String) : LogEntry :=
  ⟨level, message, "worker"⟩

/-- Python dict lookup `d.get(k)` on an association list. -/
def listLookup (l : List (String × String)) (k : String) : Option String :=
  (l.find? (fun kv => kv.1 == k)).map (fun kv => kv.2)

/-- Result of one (sub)step of the orchestrator: the job as mutated so far,
the effects performed, the log entries written, and the exception escaping
the step, if any. -/
structure TaskStep where
  job : Job
  effects : List Effect
  logs : List LogEntry
  error : Option String
  deriving Repr, DecidableEq

/-- External-world outcomes consumed by `execute_cdk_provisioning`: the role
assumption, the caller-identity check, the VpcId found on the most recent
successful job in the region (and whether that VPC still exists), the image
store for the cached-AMI search, whether the deployment script file needed
by user-data generation is present, the CDK deploy outcome and its outputs
file content, and whether the completion-email send would succeed. -/
structure CdkWorld where
  assumeRole : Except String Credentials
  callerIdentity : Except String (String × String)
  recentSuccessVpc : Option String
  vpcStillExists : Bool
  provider : Ec2Provider
  userDataOk : Bool
  deploySuccess : Bool
  deployOutputs : List (String × String)
  emailSendOk : Bool
  deriving Repr

/-- Credential resolution of `execute_cdk_provisioning` (worker/tasks.py
lines 130-176), including the `else: raise Unsupported auth method` branch
that the AMI task lacks.  Every failure is logged as
`AWS authentication failed: …` by the surrounding `except` before
re-raising. -/
def resolveCdkCredentials (env : EnvConfig) (region : String)
    (assumeRole : Except String Credentials) :
    Except String (Credentials × List Effect × List LogEntry) :=
  if env.authMethod == "assume_role" then
    match env.assumeRoleArn with
    | none => .error "AWS_ASSUME_ROLE_ARN not configured"
    | some arn =>
      match assumeRole with
      | .error e => .error e
      | .ok c =>
        .ok (c, [.apiCall "sts:AssumeRole"],
          [wkLog "info" ("Assuming role: " ++ arn),
           wkLog "info" ("✓ Assumed role successfully (expires: "
             ++ c.expiration.getD "" ++ ")")])
  else if env.authMethod == "access_keys" then
    match env.accessKeyId, env.secretAccessKey with
    | some ak, some sk =>
      .ok (⟨ak, sk, none, none, region⟩, [],
        [wkLog "info" "✓ Using access key credentials"])
    | _, _ => .error "AWS_ACCESS_KEY_ID and AWS_SECRET_ACCESS_KEY not configured"
  else .error ("Unsupported auth method: " ++ env.authMethod)

/-- The VPC-reuse step of `execute_cdk_provisioning` (lines 181-198): when
the job has no VPC, look at the most recent successful job's `VpcId` output,
verify the VPC still exists (one `describe_vpcs` lookup that never raises),
and reuse it or fall back silently.  The source interpolates the donor job's
id into the log lines; the embedding leaves that id out. -/
def cdkVpcReuse (job : Job) (w : CdkWorld) : Job × List Effect × List LogEntry :=
  match job.vpcId with
  | some _ => (job, [], [])
  | none =>
    match w.recentSuccessVpc with
    | none => (job, [], [])
    | some v =>
      if w.vpcStillExists then
        ({ job with vpcId := some v }, [.apiCall "ec2:DescribeVpcs"],
         [wkLog "info" ("♻️  Reusing VPC from previous successful job: " ++ v)])
      else
        (job, [.apiCall "ec2:DescribeVpcs"],
         [wkLog "warning" ("⚠️  VPC " ++ v
           ++ " from previous job no longer exists, will create new VPC")])

/-- The cached-AMI selection step of `execute_cdk_provisioning`
(lines 200-213). -/
def cdkCachedAmiSelect (job : Job) (w : CdkWorld) : Job × List Effect × List LogEntry :=
  if job.useCachedAmi && job.amiId == none && job.deploymentType == "kamiwaza" then
    let version := job.kamiwazaBranch.getD "release/0.9.2"
    match checkAmiExistsForVersion version w.provider with
    | some cachedAmiId =>
      ({ job with amiId := some cachedAmiId }, [.apiCall "ec2:DescribeImages"],
       [wkLog "info" "Searching for cached Kamiwaza AMI...",
        wkLog "info" ("✓ Found cached AMI: " ++ cachedAmiId ++ " for version " ++ version)])
    | none =>
      (job, [.apiCall "ec2:DescribeImages"],
       [wkLog "info" "Searching for cached Kamiwaza AMI...",
        wkLog "warning" ("⚠️  No cached AMI found for version " ++ version
          ++ ", will use default AMI and full installation")])
  else (job, [], [])

/-- The success tail of `execute_cdk_provisioning` (lines 247-278): persist
outputs, set `success` with the completion timestamp, send the completion
email, and only then schedule log streaming and the first readiness check
for Kamiwaza deployments. -/
def cdkSuccessTail (job : Job) (now : Nat) (w : CdkWorld) : TaskStep :=
  let job := { job with
    instanceId := listLookup w.deployOutputs "InstanceId",
    publicIp := listLookup w.deployOutputs "PublicIP",
    privateIp := listLookup w.deployOutputs "PrivateIP",
    terraformOutputs := some w.deployOutputs,
    status := "success",
    completedAt := some now }
  let logs := [wkLog "info" "✓ CDK deployment completed successfully"]
  match sendCompletionEmail job now w.emailSendOk with
  | .error e => ⟨job, [.statusWrite "success", .emailCall], logs, some e⟩
  | .ok job2 =>
    if job2.deploymentType == "kamiwaza" then
      ⟨job2,
       [.statusWrite "success", .emailCall,
        .scheduleTask "stream_kamiwaza_logs", .scheduleTask "check_kamiwaza_readiness"],
       logs ++
         [wkLog "info" "Starting Kamiwaza log streaming...",
          wkLog "info" "Starting Kamiwaza readiness checks (will begin in 3 minutes)..."],
       none⟩
    else ⟨job2, [.statusWrite "success", .emailCall], logs, none⟩

/-- `execute_cdk_provisioning(job, db, log_message)` of worker/tasks.py
lines 120-281: credential resolution and identity check, VPC reuse, cached
AMI selection, user-data generation (which raises when the deployment script
file is missing), the CDK deploy via `AWSCDKProvisioner.deploy_ec2_instance`
(one supervised subprocess stage), then the success tail or the
`CDK deployment failed` exception.  Info-level progress lines that carry no
decision are elided. -/
def executeCdkProvisioning (job : Job) (env : EnvConfig) (now : Nat)
    (w : CdkWorld) : TaskStep :=
  let logs0 := [wkLog "info" "Using AWS CDK for provisioning",
    wkLog "info" "Getting AWS credentials..."]
  match resolveCdkCredentials env job.awsRegion w.assumeRole with
  | .error e =>
    ⟨job, [], logs0 ++ [wkLog "error" ("AWS authentication failed: " ++ e)], some e⟩
  | .ok (_, credEffects, credLogs) =>
    match w.callerIdentity with
    | .error e =>
      ⟨job, credEffects ++ [.apiCall "sts:GetCallerIdentity"],
       logs0 ++ credLogs ++ [wkLog "error" ("AWS authentication failed: " ++ e)], some e⟩
    | .ok (accountId, arn) =>
      let job := { job with awsAccountId := some accountId }
      let effects1 := credEffects ++ [.apiCall "sts:GetCallerIdentity"]
      let logs1 := logs0 ++ credLogs ++
        [wkLog "info" ("✓ Authenticated as: " ++ arn),
         wkLog "info" "Preparing instance configuration..."]
      let vpcStep := cdkVpcReuse job w
      let amiStep := cdkCachedAmiSelect vpcStep.1 w
      let job := amiStep.1
      let effects2 := effects1 ++ vpcStep.2.1 ++ amiStep.2.1
      let logs2 := logs1 ++ vpcStep.2.2 ++ amiStep.2.2
      if job.deploymentType == "kamiwaza" && !w.userDataOk then
        ⟨job, effects2, logs2, some "Kamiwaza deployment script not found"⟩
      else
        let effects3 := effects2 ++ [.subprocess "cdk synth+deploy"]
        let logs3 := logs2 ++ [wkLog "info" "Deploying EC2 instance with AWS CDK..."]
        if w.deploySuccess then
          let tail := cdkSuccessTail job now w
          ⟨tail.job, effects3 ++ tail.effects, logs3 ++ tail.logs, tail.error⟩
        else
          ⟨job, effects3, logs3, some "CDK deployment failed - see logs for details"⟩

/-- External-world outcomes consumed by `execute_terraform_provisioning`:
role assumption and identity check (via `AWSHandler`), workspace
preparation, the four Terraform stages, and whether the completion-email
send would succeed. -/
structure TfWorld where
  assumeRole : Except String Credentials
  callerIdentity : Except String (String × String)
  prepareWorkspace : Except String Unit
  initResult : Except String Unit
  validateResult : Except String Unit
  applyResult : Except String Unit
  outputsResult : Except String (List (String × String))
  emailSendOk : Bool
  deriving Repr

/-- The Terraform stage sequence of `execute_terraform_provisioning`
(lines 376-387): init, validate, apply, then read outputs; the first
`TerraformError` aborts the sequence. -/
def runTerraformStages (tw : TfWorld) :
    Except (String × List Effect) (List (String × String) × List Effect) :=
  match tw.initResult with
  | .error e => .error (e, [.subprocess "terraform init"])
  | .ok _ =>
    match tw.validateResult with
    | .error e => .error (e, [.subprocess "terraform init", .subprocess "terraform validate"])
    | .ok _ =>
      match tw.applyResult with
      | .error e => .error (e,
          [.subprocess "terraform init", .subprocess "terraform validate",
           .subprocess "terraform apply"])
      | .ok _ =>
        match tw.outputsResult with
        | .error e => .error (e,
            [.subprocess "terraform init", .subprocess "terraform validate",
             .subprocess "terraform apply", .subprocess "terraform output"])
        | .ok outputs => .ok (outputs,
            [.subprocess "terraform init", .subprocess "terraform validate",
             .subprocess "terraform apply", .subprocess "terraform output"])

/-- `execute_terraform_provisioning(job, db, log_message)` of
worker/tasks.py lines 284-414 (the legacy path): `AWSHandler` authentication
keyed on the job's own auth method (access keys are rejected outright),
workspace preparation, the Terraform stages, output persistence, `success`
with completion timestamp, then the completion email.  Info-level progress
lines internal to `TerraformRunner` are elided. -/
def executeTerraformProvisioning (job : Job) (now : Nat) (tw : TfWorld) : TaskStep :=
  let logs0 := [wkLog "info" "Using Terraform for provisioning (legacy mode)",
    wkLog "info" "Authenticating with AWS..."]
  if job.awsAuthMethod == "assume_role" then
    match tw.assumeRole with
    | .error e =>
      ⟨job, [.apiCall "sts:AssumeRole"],
       logs0 ++ [wkLog "error" ("AWS authentication failed: " ++ e)], some e⟩
    | .ok _ =>
      match tw.callerIdentity with
      | .error e =>
        ⟨job, [.apiCall "sts:AssumeRole", .apiCall "sts:GetCallerIdentity"],
         logs0 ++ [wkLog "error" ("AWS authentication failed: " ++ e)], some e⟩
      | .ok (accountId, arn) =>
        let job := { job with awsAccountId := some accountId }
        let effects1 := [Effect.apiCall "sts:AssumeRole", Effect.apiCall "sts:GetCallerIdentity"]
        let logs1 := logs0 ++
          [wkLog "info" ("Authenticated as: " ++ arn ++ " (Account: " ++ accountId ++ ")"),
           wkLog "info" "Preparing Terraform workspace..."]
        match tw.prepareWorkspace with
        | .error e =>
          ⟨job, effects1, logs1 ++ [wkLog "error" ("Failed to prepare workspace: " ++ e)], some e⟩
        | .ok _ =>
          let logs2 := logs1 ++ [wkLog "info" "Preparing Terraform variables..."]
          match runTerraformStages tw with
          | .error (e, stageEffects) =>
            ⟨job, effects1 ++ stageEffects,
             logs2 ++ [wkLog "error" ("Terraform execution failed: " ++ e)], some e⟩
          | .ok (outputs, stageEffects) =>
            let job := { job with
              instanceId := listLookup outputs "instance_id",
              publicIp := listLookup outputs "public_ip",
              privateIp := listLookup outputs "private_ip",
              terraformOutputs := some outputs,
              status := "success",
              completedAt := some now }
            let logs3 := logs2 ++ [wkLog "info" "Job completed successfully"]
            match sendCompletionEmail job now tw.emailSendOk with
            | .error e =>
              ⟨job, effects1 ++ stageEffects ++ [.statusWrite "success", .emailCall],
               logs3, some e⟩
            | .ok job2 =>
              ⟨job2, effects1 ++ stageEffects ++ [.statusWrite "success", .emailCall],
               logs3, none⟩
  else
    ⟨job, [],
     logs0 ++ [wkLog "error" "Access key authentication not fully implemented in worker",
       wkLog "error"
         "AWS authentication failed: Access key auth requires credentials to be passed securely"],
     some "Access key auth requires credentials to be passed securely"⟩

/-- `execute_provisioning_job(job_id)` of worker/tasks.py lines 60-117: set
`running` with the start timestamp, dispatch on `AWS_PROVISIONING_METHOD`,
and on any escaping exception set `failed` with the captured error and the
completion timestamp and send the failure email; an exception raised by that
email call escapes the handler and the task itself. -/
def executeProvisioningJob (job : Job) (env : EnvConfig) (now : Nat)
    (cw : CdkWorld) (tw : TfWorld) (emailSendOk : Bool) : TaskStep :=
  let job := { job with status := "running", startedAt := some now }
  let effects0 := [Effect.statusWrite "running"]
  let logs0 := [wkLog "info" "Job execution started",
    wkLog "info" ("Provisioning method: " ++ env.provisioningMethod)]
  let inner := if env.provisioningMethod == "cdk" then
      executeCdkProvisioning job env now cw
    else
      executeTerraformProvisioning job now tw
  match inner.error with
  | none => ⟨inner.job, effects0 ++ inner.effects, logs0 ++ inner.logs, none⟩
  | some msg =>
    let job2 := { inner.job with
      status := "failed", errorMessage := some msg, completedAt := some now }
    let effects1 := effects0 ++ inner.effects ++ [Effect.statusWrite "failed", Effect.emailCall]
    let logs1 := logs0 ++ inner.logs ++ [wkLog "error" ("Job failed: " ++ msg)]
    match sendCompletionEmail job2 now emailSendOk with
    | .error e => ⟨job2, effects1, logs1, some e⟩
    | .ok job3 => ⟨job3, effects1, logs1, none⟩

/-- The sequence of job-status writes among the effects. -/
def statusWrites (effects : List Effect) : List String :=
  effects.filterMap (fun e => match e with | .statusWrite s => some s | _ => none)

/-- Whether no subprocess was launched. -/
def noSubprocess (effects : List Effect) : Bool :=
  effects.all (fun e => match e with | .subprocess _ => false | _ => true)

/-- A Terraform child process as `run_terraform_command` observes it: the
non-empty lines it emits on its merged output stream, whether it ever exits
(closing that stream), and its exit code. -/
structure TfChild where
  outputLines : List String
  exits : Bool
  exitCode : Nat
  deriving Repr, DecidableEq

/-- Outcome of `TerraformRunner.run_terraform_command`. -/
inductive TfOutcome
  | hangs
  | raisesError (msg : String)
  | completedOk (stdout : String)
  deriving Repr, DecidableEq

/-- `TerraformRunner.run_terraform_command` (app/terraform_runner.py lines
98-179, `capture_output=True` path): `Popen` with stderr merged into stdout,
a blocking `for line in process.stdout` loop, then `process.wait()`.  No
timeout is passed to `Popen`, the loop or `wait`, so a child that never
exits blocks the caller forever; a non-zero exit code raises
`TerraformError`. -/
def runTerraformCommand (child : TfChild) : TfOutcome :=
  if !child.exits then .hangs
  else if child.exitCode != 0 then
    .raisesError ("Terraform command failed with exit code " ++ toString child.exitCode)
  else .completedOk (String.intercalate "\n" child.outputLines)

/-- A CDK synth child: how long it would run and its exit code. -/
structure SynthChild where
  duration : Nat
  exitCode : Nat
  deriving Repr, DecidableEq

/-- Outcome of the synth stage. -/
inductive SynthOutcome
  | timedOutKilled
  | completed (exitCode : Nat)
  deriving Repr, DecidableEq

/-- `timeout=120` of the `subprocess.run` synth call
(app/aws_cdk_provisioner.py line 380). -/
def cdkSynthTimeout : Nat := 120

/-- The CDK synth stage (app/aws_cdk_provisioner.py lines 374-388):
`subprocess.run(..., timeout=120)` kills the child and raises
`TimeoutExpired` when the timeout elapses (caught at line 528 and reported
as a failed deployment). -/
def runCdkSynth (child : SynthChild) : SynthOutcome :=
  if cdkSynthTimeout < child.duration then .timedOutKilled
  else .completed child.exitCode

/-- A CDK deploy child: whether it eventually closes its merged output
stream, whether it exits within the 600-second wait that begins only after
end-of-output, and its exit code. -/
structure DeployChild where
  outputEofReached : Bool
  exitsWithinWaitTimeout : Bool
  exitCode : Nat
  deriving Repr, DecidableEq

/-- Outcome of the deploy stage. -/
inductive DeployOutcome
  | blocksForever
  | timeoutFailureNoKill
  | finished (exitCode : Nat)
  deriving Repr, DecidableEq

/-- The CDK deploy stage (app/aws_cdk_provisioner.py lines 414-533): the
`for line in iter(process.stdout.readline, ...)` loop blocks with no timeout
until the child closes its merged output stream; only then does
`process.wait(timeout=600)` run, and its `TimeoutExpired` is caught at line
528 and turned into a failure return without terminating the child
(`Popen.wait` does not kill on timeout and the handler does not either). -/
def runCdkDeployWait (child : DeployChild) : DeployOutcome :=
  if !child.outputEofReached then .blocksForever
  else if !child.exitsWithinWaitTimeout then .timeoutFailureNoKill
  else .finished child.exitCode

/-- The provider with the cached image whose describe call fails. -/
def providerDownCached : Ec2Provider := ⟨[cachedImg], true⟩

/-- The provider with the cached image and a working describe call. -/
def providerUpCached : Ec2Provider := ⟨[cachedImg], false⟩

/-- AMI-task world: describe fails, creation would succeed. -/
def amiWorldDown : AmiWorld :=
  ⟨.error "unused", providerDownCached, .ok "ami-new01", true, "", none⟩

/-- AMI-task world: describe works, creation would succeed. -/
def amiWorldUp : AmiWorld :=
  ⟨.error "unused", providerUpCached, .ok "ami-new01", true, "", none⟩

/-- The empty responsive provider. -/
def providerEmpty : Ec2Provider := ⟨[], false⟩

/-- AMI-task world where `create_image` raises a provider error. -/
def amiWorldCreateFail : AmiWorld :=
  ⟨.error "unused", providerEmpty, .error "Not authorized", true, "", none⟩

/-- A freshly queued Kamiwaza job handed to the orchestrator. -/
def queuedJob : Job :=
  { sampleJob with
    status := "queued", awsAccountId := none, instanceId := none,
    publicIp := none, privateIp := none, terraformOutputs := none,
    startedAt := none, completedAt := none }

/-- CDK world in which every external step succeeds and the deploy produces
the usual outputs. -/
def cdkWorldHappy : CdkWorld :=
  ⟨.error "unused", .ok ("123456789012", "arn:aws:iam::123456789012:user/demo"),
   none, true, providerEmpty, true, true,
   [("InstanceId", "i-0abc"), ("PublicIP", "203.0.113.10"),
    ("PrivateIP", "10.0.0.5"), ("VpcId", "vpc-1")], true⟩

/-- Terraform world for attempts that never reach the legacy path. -/
def tfWorldUnused : TfWorld :=
  ⟨.error "unused", .error "unused", .error "unused", .error "unused",
   .error "unused", .error "unused", .error "unused", true⟩

/-- Environment configured for assume-role authentication with no role ARN. -/
def envAssumeNoArn : EnvConfig :=
  ⟨"cdk", "assume_role", none, none, none, none, none⟩

-- ===========================================================================
-- Theorems
-- ===========================================================================

theorem foldl_pickLater_mem (tl : List Image) (acc : Image) :
    tl.foldl pickLater acc = acc ∨ tl.foldl pickLater acc ∈ tl := by
  induction tl generalizing acc with
  | nil => exact Or.inl rfl
  | cons x xs ih =>
    simp only [List.foldl_cons]
    rcases ih (pickLater acc x) with h | h
    · rw [h]
      unfold pickLater
      by_cases hc : acc.creationDate < x.creationDate
      · simp only [hc, if_pos]
        exact Or.inr (List.mem_cons_self x xs)
      · simp [hc]
    · exact Or.inr (List.mem_cons.mpr (Or.inr h))

theorem foldl_pickLater_acc_le (tl : List Image) (acc : Image) :
    acc.creationDate ≤ (tl.foldl pickLater acc).creationDate := by
  induction tl generalizing acc with
  | nil => exact Nat.le_refl _
  | cons x xs ih =>
    simp only [List.foldl_cons]
    refine Nat.le_trans ?_ (ih (pickLater acc x))
    unfold pickLater
    by_cases hc : acc.creationDate < x.creationDate
    · simp only [hc, if_pos]
      exact Nat.le_of_lt hc
    · simp only [hc, if_neg, not_false_eq_true]
      exact Nat.le_refl _

theorem foldl_pickLater_mem_le (tl : List Image) (acc : Image) :
    ∀ img ∈ tl, img.creationDate ≤ (tl.foldl pickLater acc).creationDate := by
  induction tl generalizing acc with
  | nil => intro img h; cases h
  | cons x xs ih =>
    intro img hmem
    simp only [List.foldl_cons]
    rcases List.mem_cons.mp hmem with h | h
    · subst h
      refine Nat.le_trans ?_ (foldl_pickLater_acc_le xs (pickLater acc img))
      unfold pickLater
      by_cases hc : acc.creationDate < img.creationDate
      · simp only [hc, if_pos]
        exact Nat.le_refl _
      · simp only [hc, if_neg, not_false_eq_true]
        exact Nat.le_of_not_lt hc
    · exact ih (pickLater acc x) img h

theorem mostRecentImage_mem (hd : Image) (tl : List Image) :
    mostRecentImage hd tl ∈ hd :: tl := by
  unfold mostRecentImage
  rcases foldl_pickLater_mem tl hd with h | h
  · rw [h]; exact List.mem_cons_self hd tl
  · exact List.mem_cons.mpr (Or.inr h)

theorem mostRecentImage_maximal (hd : Image) (tl : List Image) :
    ∀ img ∈ hd :: tl, img.creationDate ≤ (mostRecentImage hd tl).creationDate := by
  intro img hmem
  unfold mostRecentImage
  rcases List.mem_cons.mp hmem with h | h
  · subst h; exact foldl_pickLater_acc_le tl img
  · exact foldl_pickLater_mem_le tl hd img h


theorem readinessFailureStep_job (j : Job) (ip : String) (d : Option String) :
    (readinessFailureStep j ip d).job = j := by
  unfold readinessFailureStep
  split <;> split <;> rfl

theorem readinessFailureStep_rescheduled (j : Job) (ip : String) (d : Option String) :
    (readinessFailureStep j ip d).rescheduled =
      decide (j.kamiwazaCheckAttempts < maxReadinessAttempts) := by
  unfold readinessFailureStep
  split <;> split <;> simp_all

theorem readinessFailureStep_warnCount (j : Job) (ip : String) (d : Option String) :
    readinessWarningCount (readinessFailureStep j ip d).logs =
      if j.kamiwazaCheckAttempts < maxReadinessAttempts then 0 else 1 := by
  unfold readinessFailureStep
  split <;> split <;> simp_all [readinessWarningCount, rcLog]

theorem probeErrorDetails_none_iff (probe : ProbeResult) :
    probeErrorDetails probe = none ↔ probeSucceeds probe = true := by
  cases probe <;> simp only [probeErrorDetails, probeSucceeds] <;>
    first
    | (split <;> simp_all)
    | simp

theorem probeFails_some (probe : ProbeResult) (h : probeSucceeds probe = false) :
    ∃ d, probeErrorDetails probe = some d := by
  cases hpd : probeErrorDetails probe with
  | none =>
    rw [probeErrorDetails_none_iff] at hpd
    rw [hpd] at h
    cases h
  | some d => exact ⟨d, rfl⟩

theorem check_failure_eq (job : Job) (now : Nat) (probe : ProbeResult)
    (w : HydrationWorld) (ip : String) (d : String)
    (hdep : job.deploymentType = "kamiwaza") (hready : job.kamiwazaReady = false)
    (hip : job.publicIp = some ip) (hd : probeErrorDetails probe = some d) :
    checkKamiwazaReadiness job now probe w =
      readinessFailureStep
        { job with kamiwazaCheckAttempts := job.kamiwazaCheckAttempts + 1,
                   kamiwazaCheckedAt := some now } ip (some d) := by
  unfold checkKamiwazaReadiness
  simp [hdep, hready, hip, hd]

theorem check_success_eq (job : Job) (now : Nat) (probe : ProbeResult)
    (w : HydrationWorld) (ip : String)
    (hdep : job.deploymentType = "kamiwaza") (hready : job.kamiwazaReady = false)
    (hip : job.publicIp = some ip) (hd : probeErrorDetails probe = none) :
    checkKamiwazaReadiness job now probe w =
      readinessSuccessStep
        { job with kamiwazaCheckAttempts := job.kamiwazaCheckAttempts + 1,
                   kamiwazaCheckedAt := some now } ip w := by
  unfold checkKamiwazaReadiness
  simp [hdep, hready, hip, hd]

theorem readinessSuccessStep_not_rescheduled (j : Job) (ip : String) (w : HydrationWorld) :
    (readinessSuccessStep j ip w).rescheduled = false := by
  unfold readinessSuccessStep
  dsimp only
  split <;> rfl

/-- C3.  For every invocation of the readiness check that performs the HTTP
probe (the job is a Kamiwaza deployment, not yet ready, with a public IP): a
200 response whose body lacks the marker never sets the ready flag, a
non-200 response (returned or raised as an HTTP error) never sets it, and in
each of these cases the attempt counter grows by exactly one; conversely the
ready flag is set only by a 200 response whose body contains the marker. -/
theorem readiness_probe_pure (job : Job) (ip : String) (now : Nat) (w : HydrationWorld)
    (hdep : job.deploymentType = "kamiwaza")
    (hready : job.kamiwazaReady = false)
    (hip : job.publicIp = some ip) :
    (∀ body, contentLooksLikeKamiwaza body = false →
      (checkKamiwazaReadiness job now (.response 200 body) w).job.kamiwazaReady = false ∧
      (checkKamiwazaReadiness job now (.response 200 body) w).job.kamiwazaCheckAttempts =
        job.kamiwazaCheckAttempts + 1) ∧
    (∀ statusCode body, statusCode ≠ 200 →
      (checkKamiwazaReadiness job now (.response statusCode body) w).job.kamiwazaReady = false ∧
      (checkKamiwazaReadiness job now (.response statusCode body) w).job.kamiwazaCheckAttempts =
        job.kamiwazaCheckAttempts + 1) ∧
    (∀ code,
      (checkKamiwazaReadiness job now (.httpError code) w).job.kamiwazaReady = false ∧
      (checkKamiwazaReadiness job now (.httpError code) w).job.kamiwazaCheckAttempts =
        job.kamiwazaCheckAttempts + 1) ∧
    (∀ probe, (checkKamiwazaReadiness job now probe w).job.kamiwazaReady = true →
      ∃ body, probe = .response 200 body ∧ contentLooksLikeKamiwaza body = true) := by
  refine ⟨?_, ?_, ?_, ?_⟩
  · intro body hbody
    have hd : probeErrorDetails (.response 200 body) =
        some ("Got HTTP 200 but content doesn't look like Kamiwaza (content length: "
          ++ toString body.length ++ " bytes)") := by
      simp [probeErrorDetails, hbody]
    rw [check_failure_eq job now _ w ip _ hdep hready hip hd,
      readinessFailureStep_job]
    exact ⟨hready, rfl⟩
  · intro statusCode body hcode
    have hbeq : (statusCode == 200) = false := by simp [hcode]
    have hd : probeErrorDetails (.response statusCode body) =
        some ("Got HTTP " ++ toString statusCode) := by
      simp [probeErrorDetails, hbeq]
    rw [check_failure_eq job now _ w ip _ hdep hready hip hd,
      readinessFailureStep_job]
    exact ⟨hready, rfl⟩
  · intro code
    have hd : probeErrorDetails (.httpError code) =
        some ("HTTP " ++ toString code ++ " error") := rfl
    rw [check_failure_eq job now _ w ip _ hdep hready hip hd,
      readinessFailureStep_job]
    exact ⟨hready, rfl⟩
  · intro probe hr
    cases hpd : probeErrorDetails probe with
    | some d =>
      rw [check_failure_eq job now probe w ip d hdep hready hip hpd,
        readinessFailureStep_job] at hr
      simp [hready] at hr
    | none =>
      have hs := (probeErrorDetails_none_iff probe).mp hpd
      cases probe with
      | response statusCode body =>
        simp only [probeSucceeds, Bool.and_eq_true, beq_iff_eq] at hs
        exact ⟨body, by rw [hs.1], hs.2⟩
      | httpError code => simp [probeSucceeds] at hs
      | connectionTimeout => simp [probeSucceeds] at hs
      | dnsFailure reason => simp [probeSucceeds] at hs
      | connectionRefused => simp [probeSucceeds] at hs
      | sslError reason => simp [probeSucceeds] at hs
      | urlError reason => simp [probeSucceeds] at hs
      | socketTimeout => simp [probeSucceeds] at hs
      | unexpectedError tn msg => simp [probeSucceeds] at hs

/-- Witness for C3 at a concrete job and probe. -/
theorem readiness_probe_pure_witness :
    (checkKamiwazaReadiness sampleJob 5 (.response 503 "Service Unavailable")
        ⟨.ok (true, ""), .ok (true, "")⟩).job.kamiwazaReady = false ∧
    (checkKamiwazaReadiness sampleJob 5 (.response 503 "Service Unavailable")
        ⟨.ok (true, ""), .ok (true, "")⟩).job.kamiwazaCheckAttempts =
      sampleJob.kamiwazaCheckAttempts + 1 :=
  (readiness_probe_pure sampleJob "203.0.113.10" 5 ⟨.ok (true, ""), .ok (true, "")⟩
    rfl rfl rfl).2.1 503 "Service Unavailable" (by decide)

theorem runReadinessChain_bound (inputs : List (Nat × ProbeResult × HydrationWorld)) :
    ∀ (job : Job) (ip : String),
      job.deploymentType = "kamiwaza" → job.kamiwazaReady = false →
      job.publicIp = some ip →
      job.kamiwazaCheckAttempts < maxReadinessAttempts →
      (∀ i ∈ inputs, probeSucceeds i.2.1 = false) →
      (runReadinessChain job inputs).2.2 ≤
        maxReadinessAttempts - job.kamiwazaCheckAttempts ∧
      readinessWarningCount (runReadinessChain job inputs).2.1 ≤ 1 ∧
      (maxReadinessAttempts - job.kamiwazaCheckAttempts ≤ inputs.length →
        readinessWarningCount (runReadinessChain job inputs).2.1 = 1) := by
  have hmax : maxReadinessAttempts = 180 := rfl
  induction inputs with
  | nil =>
    intro job ip hdep hready hip hlt _
    refine ⟨by simp [runReadinessChain],
      by simp [runReadinessChain, readinessWarningCount], ?_⟩
    intro hlen
    simp only [List.length_nil] at hlen
    omega
  | cons hd rest ih =>
    intro job ip hdep hready hip hlt hfail
    obtain ⟨now, probe, w⟩ := hd
    have hfailhd : probeSucceeds probe = false :=
      hfail (now, probe, w) (List.mem_cons_self _ _)
    obtain ⟨d, hpd⟩ := probeFails_some probe hfailhd
    have hstep := check_failure_eq job now probe w ip d hdep hready hip hpd
    simp only [runReadinessChain, hstep, readinessFailureStep_rescheduled,
      readinessFailureStep_job]
    by_cases hc : job.kamiwazaCheckAttempts + 1 < maxReadinessAttempts
    · have hdec : decide (({ job with
          kamiwazaCheckAttempts := job.kamiwazaCheckAttempts + 1,
          kamiwazaCheckedAt := some now } : Job).kamiwazaCheckAttempts
            < maxReadinessAttempts) = true := by
        simp only [decide_eq_true_iff]
        exact hc
      rw [hdec]
      simp only [if_true]
      have hrest := ih
        { job with kamiwazaCheckAttempts := job.kamiwazaCheckAttempts + 1,
                   kamiwazaCheckedAt := some now } ip hdep hready hip hc
        (fun i hi => hfail i (List.mem_cons.mpr (Or.inr hi)))
      have hattr : ({ job with
          kamiwazaCheckAttempts := job.kamiwazaCheckAttempts + 1,
          kamiwazaCheckedAt := some now } : Job).kamiwazaCheckAttempts =
            job.kamiwazaCheckAttempts + 1 := rfl
      rw [hattr] at hrest
      have hwarn0 : readinessWarningCount
          (readinessFailureStep
            { job with kamiwazaCheckAttempts := job.kamiwazaCheckAttempts + 1,
                       kamiwazaCheckedAt := some now } ip (some d)).logs = 0 := by
        rw [readinessFailureStep_warnCount]
        simp only [if_pos hc]
      refine ⟨?_, ?_, ?_⟩
      · have := hrest.1
        omega
      · simp only [readinessWarningCount, List.countP_append] at *
        omega
      · intro hlen
        simp only [List.length_cons] at hlen
        have hlen2 : maxReadinessAttempts -
            (job.kamiwazaCheckAttempts + 1) ≤ rest.length := by omega
        have := hrest.2.2 hlen2
        simp only [readinessWarningCount, List.countP_append] at *
        omega
    · have hdec : decide (({ job with
          kamiwazaCheckAttempts := job.kamiwazaCheckAttempts + 1,
          kamiwazaCheckedAt := some now } : Job).kamiwazaCheckAttempts
            < maxReadinessAttempts) = false := by
        simp only [decide_eq_false_iff_not]
        exact hc
      rw [hdec]
      simp only [Bool.false_eq_true, if_false]
      have hwarn1 : readinessWarningCount
          (readinessFailureStep
            { job with kamiwazaCheckAttempts := job.kamiwazaCheckAttempts + 1,
                       kamiwazaCheckedAt := some now } ip (some d)).logs = 1 := by
        rw [readinessFailureStep_warnCount]
        simp only [if_neg hc]
      refine ⟨by omega, by omega, fun _ => hwarn1⟩

/-- C4.  For every Kamiwaza job with a public IP that is not yet ready: a
failing probe invocation reschedules the poller exactly when the incremented
attempt counter is still below `MAX_ATTEMPTS = 180`; once the counter
reaches the cap the invocation writes exactly one exhaustion (warning) log
entry and schedules no further probe; and along any stream of failing
probes the self-rescheduling chain performs at most
`180 - attempts` further invocations, writing exactly one exhaustion entry
when enough failing probes occur. -/
theorem readiness_poller_bounded (job : Job) (ip : String) (now : Nat) (w : HydrationWorld)
    (hdep : job.deploymentType = "kamiwaza")
    (hready : job.kamiwazaReady = false)
    (hip : job.publicIp = some ip) :
    (∀ probe, probeSucceeds probe = false →
      ((checkKamiwazaReadiness job now probe w).rescheduled = true ↔
        job.kamiwazaCheckAttempts + 1 < maxReadinessAttempts)) ∧
    (∀ probe, probeSucceeds probe = false →
      maxReadinessAttempts ≤ job.kamiwazaCheckAttempts + 1 →
      readinessWarningCount (checkKamiwazaReadiness job now probe w).logs = 1 ∧
      (checkKamiwazaReadiness job now probe w).rescheduled = false) ∧
    (job.kamiwazaCheckAttempts < maxReadinessAttempts →
      ∀ inputs : List (Nat × ProbeResult × HydrationWorld),
        (∀ i ∈ inputs, probeSucceeds i.2.1 = false) →
        (runReadinessChain job inputs).2.2 ≤
          maxReadinessAttempts - job.kamiwazaCheckAttempts ∧
        (maxReadinessAttempts - job.kamiwazaCheckAttempts ≤ inputs.length →
          readinessWarningCount (runReadinessChain job inputs).2.1 = 1)) := by
  refine ⟨?_, ?_, ?_⟩
  · intro probe hfailp
    obtain ⟨d, hpd⟩ := probeFails_some probe hfailp
    rw [check_failure_eq job now probe w ip d hdep hready hip hpd,
      readinessFailureStep_rescheduled]
    simp
  · intro probe hfailp hcap
    obtain ⟨d, hpd⟩ := probeFails_some probe hfailp
    rw [check_failure_eq job now probe w ip d hdep hready hip hpd,
      readinessFailureStep_warnCount, readinessFailureStep_rescheduled]
    have hnot : ¬ (({ job with
        kamiwazaCheckAttempts := job.kamiwazaCheckAttempts + 1,
        kamiwazaCheckedAt := some now } : Job).kamiwazaCheckAttempts
          < maxReadinessAttempts) := by
      simp only [not_lt]
      exact hcap
    refine ⟨by rw [if_neg hnot], by simp [hnot]⟩
  · intro hlt inputs hfailin
    have := runReadinessChain_bound inputs job ip hdep hready hip hlt hfailin
    exact ⟨this.1, this.2.2⟩

/-- Witness for C4 at a concrete job one attempt short of the cap. -/
theorem readiness_poller_bounded_witness :
    readinessWarningCount
      (checkKamiwazaReadiness { sampleJob with kamiwazaCheckAttempts := 179 } 9
        (.response 503 "Service Unavailable") ⟨.ok (true, ""), .ok (true, "")⟩).logs = 1 ∧
    (checkKamiwazaReadiness { sampleJob with kamiwazaCheckAttempts := 179 } 9
        (.response 503 "Service Unavailable") ⟨.ok (true, ""), .ok (true, "")⟩).rescheduled
      = false :=
  (readiness_poller_bounded { sampleJob with kamiwazaCheckAttempts := 179 }
    "203.0.113.10" 9 ⟨.ok (true, ""), .ok (true, "")⟩ rfl rfl rfl).2.1
    (.response 503 "Service Unavailable") (by decide) (by decide)

/-- C8.  With a responsive provider, the cached-image lookup returns `none`
exactly when no image passes the managed/version/available/self filters, and
otherwise the id of a filtered image of maximal creation date; both
`release/X` and bare `X` normalize to `vX`. -/
theorem cached_image_lookup_spec (version : String) (provider : Ec2Provider)
    (h : provider.describeFails = false) :
    (checkAmiExistsForVersion version provider = none ↔
      provider.images.filter (amiFilterMatch (normalizeKamiwazaVersion version)) = []) ∧
    (∀ id, checkAmiExistsForVersion version provider = some id →
      ∃ img ∈ provider.images.filter (amiFilterMatch (normalizeKamiwazaVersion version)),
        img.imageId = id ∧
        ∀ other ∈ provider.images.filter (amiFilterMatch (normalizeKamiwazaVersion version)),
          other.creationDate ≤ img.creationDate) ∧
    normalizeKamiwazaVersion "release/0.9.2" = "v0.9.2" ∧
    normalizeKamiwazaVersion "0.9.2" = "v0.9.2" := by
  refine ⟨?_, ?_, by decide, by decide⟩
  · unfold checkAmiExistsForVersion describeKamiwazaImages
    simp only [h, Bool.false_eq_true, if_false]
    cases hf : provider.images.filter (amiFilterMatch (normalizeKamiwazaVersion version)) with
    | nil => simp
    | cons hd tl => simp
  · intro id hid
    unfold checkAmiExistsForVersion describeKamiwazaImages at hid
    simp only [h, Bool.false_eq_true, if_false] at hid
    cases hf : provider.images.filter (amiFilterMatch (normalizeKamiwazaVersion version)) with
    | nil => rw [hf] at hid; cases hid
    | cons hd tl =>
      rw [hf] at hid
      simp only [Option.some.injEq] at hid
      refine ⟨mostRecentImage hd tl, ?_, hid, ?_⟩
      · exact mostRecentImage_mem hd tl
      · intro other hother
        exact mostRecentImage_maximal hd tl other hother

/-- Witness for C8: the normalization facts extracted from the theorem at a
concrete provider with a cached v0.9.2 image. -/
theorem cached_image_lookup_spec_witness :
    normalizeKamiwazaVersion "release/0.9.2" = "v0.9.2" ∧
    normalizeKamiwazaVersion "0.9.2" = "v0.9.2" :=
  ⟨(cached_image_lookup_spec "release/0.9.2" ⟨[cachedImg], false⟩ rfl).2.2.1,
   (cached_image_lookup_spec "0.9.2" ⟨[cachedImg], false⟩ rfl).2.2.2⟩

/-- C2 counterexample: with an available managed image for the pair present
at the provider but the describe call of the pre-creation re-check failing,
the task still issues `create_image` — the claim's unconditional "never
creates a second image for a (region, version) pair for which an available
managed image already exists" is false. -/
theorem ami_idempotency_counterexample :
    cachedImg ∈ providerDownCached.images ∧
    amiFilterMatch
      (normalizeKamiwazaVersion (sampleJob.kamiwazaBranch.getD "v0.9.2")) cachedImg = true ∧
    (createAmiAfterDeployment sampleJob envAccessKeys 42 amiWorldDown).didCreate = true := by
  refine ⟨?_, by decide, by decide⟩
  simp [providerDownCached, cachedImg]

/-- C2 amended.  Immediately before creating, the task re-runs the cached
image lookup for the job's normalized version; whenever that lookup returns
an image id it records `skipped`, stores the id on the job, and performs no
create call. -/
theorem ami_precreate_recheck_skips (job : Job) (env : EnvConfig) (now : Nat)
    (w : AmiWorld) (amiId : String)
    (hdep : job.deploymentType = "kamiwaza")
    (hstat : (job.amiCreationStatus == some "creating"
      || job.amiCreationStatus == some "completed") = false)
    (hinst : ∃ i, job.instanceId = some i)
    (hcred : ∃ c, resolveAmiTaskCredentials env job.awsRegion w.assumeRole = .ok c)
    (hfound : checkAmiExistsForVersion
      (normalizeKamiwazaVersion (job.kamiwazaBranch.getD "v0.9.2")) w.provider = some amiId) :
    (createAmiAfterDeployment job env now w).job.amiCreationStatus = some "skipped" ∧
    (createAmiAfterDeployment job env now w).job.createdAmiId = some amiId ∧
    (createAmiAfterDeployment job env now w).didCreate = false := by
  obtain ⟨i, hi⟩ := hinst
  obtain ⟨c, hc⟩ := hcred
  unfold createAmiAfterDeployment
  simp [hdep, hstat, hi, hc, hfound]

/-- Witness for the amended C2 at a concrete job and provider. -/
theorem ami_precreate_recheck_skips_witness :
    (createAmiAfterDeployment sampleJob envAccessKeys 42 amiWorldUp).job.amiCreationStatus
      = some "skipped" ∧
    (createAmiAfterDeployment sampleJob envAccessKeys 42 amiWorldUp).job.createdAmiId
      = some "ami-cached01" ∧
    (createAmiAfterDeployment sampleJob envAccessKeys 42 amiWorldUp).didCreate = false :=
  ami_precreate_recheck_skips sampleJob envAccessKeys 42 amiWorldUp "ami-cached01"
    rfl rfl ⟨"i-0abc", rfl⟩
    ⟨some ⟨"AKIAEXAMPLE", "secretExample", none, none, "us-west-2"⟩, rfl⟩ (by decide)

/-- C7.  The AMI-creation task never touches the job's overall `status`
field on any path; and each failure of the creating/waiting steps records
`ami_creation_status = failed` together with the error text and writes an
error log entry. -/
theorem ami_failure_recorded_never_fails_job (job : Job) (env : EnvConfig)
    (now : Nat) (w : AmiWorld) :
    ((createAmiAfterDeployment job env now w).job.status = job.status) ∧
    (∀ m, job.deploymentType = "kamiwaza" →
      (job.amiCreationStatus == some "creating"
        || job.amiCreationStatus == some "completed") = false →
      (∃ i, job.instanceId = some i) →
      (∃ c, resolveAmiTaskCredentials env job.awsRegion w.assumeRole = .ok c) →
      checkAmiExistsForVersion
        (normalizeKamiwazaVersion (job.kamiwazaBranch.getD "v0.9.2")) w.provider = none →
      w.createResult = .error m →
      (createAmiAfterDeployment job env now w).job.amiCreationStatus = some "failed" ∧
      (createAmiAfterDeployment job env now w).job.amiCreationError =
        some ("AWS error creating AMI: " ++ m) ∧
      0 < ((createAmiAfterDeployment job env now w).logs.countP
        (fun e => e.level == "error"))) ∧
    (∀ amiId, job.deploymentType = "kamiwaza" →
      (job.amiCreationStatus == some "creating"
        || job.amiCreationStatus == some "completed") = false →
      (∃ i, job.instanceId = some i) →
      (∃ c, resolveAmiTaskCredentials env job.awsRegion w.assumeRole = .ok c) →
      checkAmiExistsForVersion
        (normalizeKamiwazaVersion (job.kamiwazaBranch.getD "v0.9.2")) w.provider = none →
      w.createResult = .ok amiId → w.waiterOk = false →
      (createAmiAfterDeployment job env now w).job.amiCreationStatus = some "failed" ∧
      (createAmiAfterDeployment job env now w).job.amiCreationError =
        some ("Unexpected error creating AMI: " ++ w.waiterError) ∧
      0 < ((createAmiAfterDeployment job env now w).logs.countP
        (fun e => e.level == "error"))) := by
  refine ⟨?_, ?_, ?_⟩
  · unfold createAmiAfterDeployment
    dsimp only
    repeat' split
    all_goals rfl
  · intro m hdep hstat hinst hcred hnone hcr
    obtain ⟨i, hi⟩ := hinst
    obtain ⟨c, hc⟩ := hcred
    unfold createAmiAfterDeployment
    simp [hdep, hstat, hi, hc, hnone, hcr, amiLog, List.countP_append, List.countP_cons]
  · intro amiId hdep hstat hinst hcred hnone hcr hwait
    obtain ⟨i, hi⟩ := hinst
    obtain ⟨c, hc⟩ := hcred
    unfold createAmiAfterDeployment
    simp [hdep, hstat, hi, hc, hnone, hcr, hwait, amiLog,
      List.countP_append, List.countP_cons]

/-- Witness for C7: a failing `create_image` records failure but leaves the
job status untouched. -/
theorem ami_failure_recorded_never_fails_job_witness :
    (createAmiAfterDeployment sampleJob envAccessKeys 44 amiWorldCreateFail).job.status
      = sampleJob.status ∧
    (createAmiAfterDeployment sampleJob envAccessKeys 44 amiWorldCreateFail).job.amiCreationStatus
      = some "failed" ∧
    (createAmiAfterDeployment sampleJob envAccessKeys 44 amiWorldCreateFail).job.amiCreationError
      = some "AWS error creating AMI: Not authorized" :=
  ⟨(ami_failure_recorded_never_fails_job sampleJob envAccessKeys 44 amiWorldCreateFail).1,
   ((ami_failure_recorded_never_fails_job sampleJob envAccessKeys 44
      amiWorldCreateFail).2.1 "Not authorized" rfl rfl ⟨"i-0abc", rfl⟩
      ⟨some ⟨"AKIAEXAMPLE", "secretExample", none, none, "us-west-2"⟩, rfl⟩
      (by decide) rfl).1,
   ((ami_failure_recorded_never_fails_job sampleJob envAccessKeys 44
      amiWorldCreateFail).2.1 "Not authorized" rfl rfl ⟨"i-0abc", rfl⟩
      ⟨some ⟨"AKIAEXAMPLE", "secretExample", none, none, "us-west-2"⟩, rfl⟩
      (by decide) rfl).2.1⟩

/-- C10.  The cached-image lookup swallows provider errors: a failing
describe call yields `none`, indistinguishable from the absence of a cached
image, so the pre-creation re-check lets image creation proceed. -/
theorem ami_lookup_never_raises (version : String) (provider : Ec2Provider)
    (h : provider.describeFails = true) :
    checkAmiExistsForVersion version provider = none ∧
    (∀ (job : Job) (env : EnvConfig) (now : Nat) (w : AmiWorld),
      w.provider = provider →
      job.deploymentType = "kamiwaza" →
      (job.amiCreationStatus == some "creating"
        || job.amiCreationStatus == some "completed") = false →
      (∃ i, job.instanceId = some i) →
      (∃ c, resolveAmiTaskCredentials env job.awsRegion w.assumeRole = .ok c) →
      (createAmiAfterDeployment job env now w).didCreate = true) := by
  have hnone : ∀ v, checkAmiExistsForVersion v provider = none := by
    intro v
    unfold checkAmiExistsForVersion describeKamiwazaImages
    simp [h]
  refine ⟨hnone version, ?_⟩
  intro job env now w hw hdep hstat hinst hcred
  obtain ⟨i, hi⟩ := hinst
  obtain ⟨c, hc⟩ := hcred
  have hnonew : checkAmiExistsForVersion
      (normalizeKamiwazaVersion (job.kamiwazaBranch.getD "v0.9.2")) w.provider = none := by
    rw [hw]
    exact hnone _
  unfold createAmiAfterDeployment
  simp only [hdep, hstat, hi, hc, hnonew]
  cases hcr : w.createResult with
  | error m => simp [hdep, hstat, hi, hc, hnonew, hcr]
  | ok amiId =>
    by_cases hwo : w.waiterOk
    · simp [hdep, hstat, hi, hc, hnonew, hcr, hwo]
    · simp [hdep, hstat, hi, hc, hnonew, hcr, hwo]

/-- Witness for C10 with the cached image present but the describe call
failing. -/
theorem ami_lookup_never_raises_witness :
    checkAmiExistsForVersion "v0.9.2" providerDownCached = none ∧
    (createAmiAfterDeployment sampleJob envAccessKeys 43 amiWorldDown).didCreate = true :=
  ⟨(ami_lookup_never_raises "v0.9.2" providerDownCached rfl).1,
   (ami_lookup_never_raises "v0.9.2" providerDownCached rfl).2 sampleJob envAccessKeys 43
     amiWorldDown rfl rfl rfl ⟨"i-0abc", rfl⟩
     ⟨some ⟨"AKIAEXAMPLE", "secretExample", none, none, "us-west-2"⟩, rfl⟩⟩

theorem unexpectedEmailKwargs_eq : unexpectedEmailKwargs = ["deployment_type"] := by
  decide

theorem sendCompletionEmail_typeError (j : Job) (n : Nat) (ok : Bool) :
    sendCompletionEmail j n ok =
      .error "TypeError: send_job_notification() got an unexpected keyword argument deployment_type" := by
  unfold sendCompletionEmail
  rw [unexpectedEmailKwargs_eq]
  rfl

/-- C1.  Evaluation of the orchestrator at a job whose CDK deployment
succeeds: the attempt writes `running` once, then `success` — and then a
second terminal write `failed`, because `send_completion_email` passes the
keyword `deployment_type` to `EmailService.send_job_notification`, which
does not accept it, so the email call raises `TypeError` after `success` was
committed and the task-level handler flips the job to `failed`.  The claim's
single terminal transition per attempt is violated. -/
theorem job_status_double_terminal_write :
    statusWrites (executeProvisioningJob queuedJob envAccessKeys 50 cdkWorldHappy
      tfWorldUnused true).effects = ["running", "success", "failed"] ∧
    (executeProvisioningJob queuedJob envAccessKeys 50 cdkWorldHappy
      tfWorldUnused true).job.status = "failed" ∧
    unexpectedEmailKwargs = ["deployment_type"] := by
  refine ⟨by decide, by decide, by decide⟩

/-- C6.  Under the CDK provisioning method with assume-role authentication
and no configured role ARN, the attempt fails during credential resolution:
the job goes directly from `running` to `failed` with the missing-ARN error
recorded, and no subprocess is ever launched. -/
theorem credential_failure_fails_before_subprocess (job : Job) (env : EnvConfig)
    (now : Nat) (cw : CdkWorld) (tw : TfWorld) (emailSendOk : Bool)
    (hm : env.provisioningMethod = "cdk")
    (ha : env.authMethod = "assume_role")
    (hr : env.assumeRoleArn = none) :
    (executeProvisioningJob job env now cw tw emailSendOk).job.status = "failed" ∧
    (executeProvisioningJob job env now cw tw emailSendOk).job.errorMessage =
      some "AWS_ASSUME_ROLE_ARN not configured" ∧
    noSubprocess (executeProvisioningJob job env now cw tw emailSendOk).effects = true ∧
    statusWrites (executeProvisioningJob job env now cw tw emailSendOk).effects =
      ["running", "failed"] := by
  unfold executeProvisioningJob executeCdkProvisioning resolveCdkCredentials
  simp [hm, ha, hr, sendCompletionEmail_typeError, statusWrites, noSubprocess]

/-- Witness for C6 at the concrete role-less environment. -/
theorem credential_failure_fails_before_subprocess_witness :
    (executeProvisioningJob queuedJob envAssumeNoArn 51 cdkWorldHappy
      tfWorldUnused true).job.status = "failed" ∧
    (executeProvisioningJob queuedJob envAssumeNoArn 51 cdkWorldHappy
      tfWorldUnused true).job.errorMessage = some "AWS_ASSUME_ROLE_ARN not configured" ∧
    noSubprocess (executeProvisioningJob queuedJob envAssumeNoArn 51 cdkWorldHappy
      tfWorldUnused true).effects = true ∧
    statusWrites (executeProvisioningJob queuedJob envAssumeNoArn 51 cdkWorldHappy
      tfWorldUnused true).effects = ["running", "failed"] :=
  credential_failure_fails_before_subprocess queuedJob envAssumeNoArn 51 cdkWorldHappy
    tfWorldUnused true rfl rfl rfl

/-- C9.  The `Job` model of app/models.py declares none of the image-cache
bookkeeping columns that scripts/migrate_database_ami_fields.py adds to the
`jobs` table and that worker/tasks.py and app/main.py read and write, while
the readiness bookkeeping column is declared. -/
theorem job_model_missing_ami_columns :
    amiBookkeepingColumns.all (fun c => !(jobModelColumns.contains c)) = true ∧
    jobModelColumns.contains "kamiwaza_check_attempts" = true := by
  decide

/-- C5 counterexample: a Terraform child that never exits makes
`run_terraform_command` block forever — the claim's "the process is
terminated and the caller receives a timeout error; never blocks
indefinitely" is false for the Terraform stage, which has no timeout at
all. -/
theorem command_supervisor_counterexample :
    runTerraformCommand ⟨[], false, 0⟩ = .hangs := by
  decide

/-- C5 amended.  The CDK synth stage kills a child exceeding its 120-second
timeout and surfaces a timeout error; the CDK deploy stage's 600-second wait
starts only after the child closes its output stream and reports its expiry
as a failure without killing the child; the Terraform runner enforces no
timeout, so a Terraform child that never exits blocks the caller
indefinitely. -/
theorem command_supervisor_timeouts :
    (∀ c : SynthChild, cdkSynthTimeout < c.duration → runCdkSynth c = .timedOutKilled) ∧
    (∀ c : DeployChild, c.outputEofReached = true → c.exitsWithinWaitTimeout = false →
      runCdkDeployWait c = .timeoutFailureNoKill) ∧
    (∀ c : TfChild, c.exits = false → runTerraformCommand c = .hangs) := by
  refine ⟨?_, ?_, ?_⟩
  · intro c hc
    unfold runCdkSynth
    rw [if_pos hc]
  · intro c h1 h2
    unfold runCdkDeployWait
    simp [h1, h2]
  · intro c h
    unfold runTerraformCommand
    simp [h]

/-- Witness for the amended C5 at concrete children. -/
theorem command_supervisor_timeouts_witness :
    runCdkSynth ⟨121, 0⟩ = .timedOutKilled ∧
    runCdkDeployWait ⟨true, false, 0⟩ = .timeoutFailureNoKill ∧
    runTerraformCommand ⟨["partial output"], false, 1⟩ = .hangs :=
  ⟨command_supervisor_timeouts.1 ⟨121, 0⟩ (by decide),
   command_supervisor_timeouts.2.1 ⟨true, false, 0⟩ rfl rfl,
   command_supervisor_timeouts.2.2 ⟨["partial output"], false, 1⟩ rfl⟩

end KzProvisioning
